import Mathlib

/-!
Verification of the configchecker monitor core against its specification.

The definitions below are a shallow embedding of the Python sources:
`configchecker/models.py` (`ProxyConfig`), `configchecker/monitor.py`
(`RollingStats`, the dashboard footer logic of `generate_dashboard`, and the
auto-select step of the `start_monitor` live loop), and
`configchecker/verifier.py` (`XrayVerifier.verify_config`).

Python floats are modelled as rationals (ℚ), wall-clock time (`time.time()`)
as an explicit rational parameter threaded through the functions that read it,
and mutation of `self` as explicit state passing (a method that mutates
returns the updated record).
-/

namespace Configchecker

/-- `ProxyConfig` from `models.py`: the immutable identity of one monitored
endpoint.  Fields not consulted by the monitor core (security, network, path,
host, sni, password) are omitted; `raw_link` is the identity key used by
`monitor.py` (`stats_map[config.raw_link]`, comparisons by `raw_link`). -/
structure ProxyConfig where
  protocol : String
  address : String
  port : Nat
  uuid : String
  remarks : String
  raw_link : String
deriving DecidableEq, Repr

/-- `RollingStats` from `monitor.py` (lines 87–93).  `history` stores
`(is_up, latency)` pairs oldest-first with capacity `maxlen` (default 100,
the `deque(maxlen=maxlen)`); `last_success_time` is initialised to the
construction time ("start assuming alive"). -/
structure RollingStats where
  config : ProxyConfig
  history : List (Bool × ℚ)
  maxlen : Nat
  last_jitter : ℚ
  smoothed_score : Option ℚ
  last_success_time : ℚ
deriving DecidableEq, Repr

/-- `RollingStats.__init__(config, maxlen=100)` at construction time `now`. -/
def RollingStats.init (config : ProxyConfig) (now : ℚ) (maxlen : Nat := 100) :
    RollingStats :=
  { config := config
    history := []
    maxlen := maxlen
    last_jitter := 0
    smoothed_score := none
    last_success_time := now }

/-- `deque.append` with `maxlen`: append on the right, evict the oldest
element on overflow. -/
def dequeAppend (maxlen : Nat) (h : List (Bool × ℚ)) (x : Bool × ℚ) :
    List (Bool × ℚ) :=
  let h' := h ++ [x]
  if maxlen < h'.length then h'.drop (h'.length - maxlen) else h'

/-- `RollingStats.add(is_up, latency)` (lines 95–98), with the call to
`time.time()` made explicit as `now`. -/
def RollingStats.add (s : RollingStats) (now : ℚ) (is_up : Bool) (latency : ℚ) :
    RollingStats :=
  { s with
    history := dequeAppend s.maxlen s.history (is_up, latency)
    last_success_time := if is_up then now else s.last_success_time }

/-- The 4-tuple `(loss, lat, jitter, count)` returned by
`RollingStats.get_metrics`. -/
structure Metrics where
  loss : ℚ
  latency : ℚ
  jitter : ℚ
  count : Nat
deriving DecidableEq, Repr

/-- Mean of a list of rationals (`statistics.mean`). -/
def listMean (l : List ℚ) : ℚ := l.sum / l.length

/-- `RollingStats.get_metrics` (lines 100–124): loss % over the whole window;
average and RFC-style jitter (mean absolute difference of consecutive
successful latencies) once at least two successful samples exist. -/
def RollingStats.get_metrics (s : RollingStats) : Metrics :=
  if s.history.isEmpty then ⟨0, 0, 0, 0⟩
  else
    let total := s.history.length
    let failures := (s.history.filter (fun p => !p.1)).length
    let loss : ℚ := ((failures : ℚ) / (total : ℚ)) * 100
    let valid_latencies := (s.history.filter (fun p => p.1)).map Prod.snd
    if valid_latencies.length < 2 then ⟨loss, 0, 0, total⟩
    else
      let avg_lat := listMean valid_latencies
      let diffs := (valid_latencies.zip valid_latencies.tail).map
        (fun p => |p.2 - p.1|)
      let jitter := if diffs.isEmpty then 0 else listMean diffs
      ⟨loss, avg_lat, jitter, total⟩

/-- The 5-tuple `(score, loss, lat, jitter, count)` returned by
`RollingStats.get_score`. -/
structure ScoreResult where
  score : ℚ
  loss : ℚ
  latency : ℚ
  jitter : ℚ
  count : Nat
deriving DecidableEq, Repr

/-- The raw composite of monitor.py line 136:
`(loss * 10000) + (jitter * 5) + (lat * 0.5)`. -/
def rawScore (m : Metrics) : ℚ :=
  m.loss * 10000 + m.jitter * 5 + m.latency * (1 / 2)

/-- `RollingStats.get_score` (lines 126–148), with `time.time()` explicit as
`now` and the mutation of `self.smoothed_score` returned as a new state.
Dead tier: more than 600 s without a success forces `loss = 100` and returns
`9999999 + time_since_success`.  Warmup tier (`count < 2`): `999999 + raw`.
Established tier: exponential smoothing `0.05·raw + 0.95·old`, seeded with
`raw` itself when `smoothed_score` is `None`. -/
def RollingStats.get_score (s : RollingStats) (now : ℚ) :
    ScoreResult × RollingStats :=
  let m := s.get_metrics
  let time_since_success := now - s.last_success_time
  if 600 < time_since_success then
    (⟨9999999 + time_since_success, 100, m.latency, m.jitter, m.count⟩, s)
  else
    let raw_score := rawScore m
    if m.count < 2 then
      (⟨999999 + raw_score, m.loss, m.latency, m.jitter, m.count⟩, s)
    else
      match s.smoothed_score with
      | none =>
          (⟨raw_score, m.loss, m.latency, m.jitter, m.count⟩,
           { s with smoothed_score := some raw_score })
      | some old =>
          let new := (1 / 20) * raw_score + (19 / 20) * old
          (⟨new, m.loss, m.latency, m.jitter, m.count⟩,
           { s with smoothed_score := some new })

/-- A sequence of `add` calls: each entry is `(now, is_up, latency)`. -/
def RollingStats.addAll (s : RollingStats) (xs : List (ℚ × Bool × ℚ)) :
    RollingStats :=
  xs.foldl (fun st x => st.add x.1 x.2.1 x.2.2) s

/-- Outcome of one probe attempt inside `real_delay_pinger` (lines 360–367):
either `verify_config` returned `(is_valid, latency)`, or some exception was
raised during the attempt (caught by `except Exception`). -/
inductive ProbeResult where
  | ok (is_valid : Bool) (latency : ℚ)
  | error
deriving DecidableEq, Repr

/-- The `(is_up, latency)` pair recorded by one pinger iteration for a given
probe outcome: `stat.add(is_valid, latency if is_valid else 0)` on a result,
`stat.add(False, 0)` on an exception. -/
def recordedOutcome : ProbeResult → Bool × ℚ
  | .ok is_valid latency => (is_valid, if is_valid then latency else 0)
  | .error => (false, 0)

/-- One iteration of the `while running` body of `real_delay_pinger`
(monitor.py lines 359–369): the probe (and any exception it raises) is the
`ProbeResult`; exactly one outcome is recorded into the target's stats. -/
def pingerIteration (stat : RollingStats) (now : ℚ) (r : ProbeResult) :
    RollingStats :=
  match r with
  | .ok is_valid latency => stat.add now is_valid (if is_valid then latency else 0)
  | .error => stat.add now false 0

/-- One entry of `current_snapshots` in the live loop (monitor.py line 689):
`(*stat.get_score(), stat.config)`. -/
structure Snap where
  score : ℚ
  loss : ℚ
  latency : ℚ
  jitter : ℚ
  count : Nat
  config : ProxyConfig
deriving DecidableEq, Repr

/-- Stable insertion by strictly smaller score: an element is inserted after
every element of equal score, which is exactly the ordering a stable sort by
key produces. -/
def insertByScore (x : Snap) : List Snap → List Snap
  | [] => [x]
  | y :: ys => if x.score < y.score then x :: y :: ys else y :: insertByScore x ys

/-- `current_snapshots.sort(key=lambda x: x[0])` (monitor.py line 690):
Python's sort is stable, and a stable sort by a single key is unique, so
stable insertion sort produces the same list. -/
def sortByScore (l : List Snap) : List Snap := l.foldr insertByScore []

/-- 1-based rank of a config inside a sorted snapshot list, located by
`raw_link` as the Python code does (monitor.py lines 407–410, 655–658). -/
def rankIn (snaps : List Snap) (c : ProxyConfig) : Nat :=
  (sortByScore snaps).findIdx (fun s => s.config.raw_link == c.raw_link) + 1

/-- The auto-select block of the live loop (monitor.py lines 686–699): sort
the snapshot by score; unless the user is navigating manually, replace the
recommendation with the best candidate of loss < 50 %, falling back to the
overall best.  The previous recommendation is consulted nowhere. -/
def autoSelectBest (snaps : List Snap) (manual_mode : Bool)
    (recommended_config : Option ProxyConfig) : Option ProxyConfig :=
  let sorted := sortByScore snaps
  if !manual_mode && !sorted.isEmpty then
    match sorted.filter (fun s => decide (s.loss < 50)) with
    | best :: _ => some best.config
    | [] =>
      match sorted with
      | top :: _ => some top.config
      | [] => recommended_config
  else recommended_config

/-- One pass of the `while running` body of `start_monitor` restricted to the
recommendation update (monitor.py lines 642–699): `elapsed` is computed at
line 643 but the auto-select block never consults it — the recommendation is
recomputed unconditionally every tick. -/
def monitorTick (elapsed : ℚ) (manual_mode : Bool) (snaps : List Snap)
    (recommended_config : Option ProxyConfig) : Option ProxyConfig :=
  autoSelectBest snaps manual_mode recommended_config

/-- Which footer the dashboard renders (generate_dashboard, monitor.py lines
505–520). -/
inductive FooterContent where
  | analyzing (remaining : ℚ)
  | verifying
  | configInfo (c : ProxyConfig)
  | noConfig
deriving DecidableEq, Repr

/-- The footer branch of `generate_dashboard` (monitor.py lines 505–520):
below 60 s of elapsed time the "Analyzing stability..." countdown is shown,
whatever the recommendation is. -/
def dashboardFooter (elapsed : ℚ) (verify_status : String)
    (display_config : Option ProxyConfig) : FooterContent :=
  if elapsed < 60 then .analyzing (60 - elapsed)
  else if verify_status ≠ "" then .verifying
  else
    match display_config with
    | some c => .configInfo c
    | none => .noConfig

/-- The environment one call of `XrayVerifier.verify_config` runs in
(verifier.py lines 80–155): whether `ensure_xray` succeeds, whether
`_generate_outbound` returns a truthy value, whether the Xray process dies
during the 0.2 s init wait, and the outcome of the proxied HTTP request —
`some (latency, status)` when a response arrives, `none` when the request
raises (timeout, connection error, …). -/
structure VerifyEnv where
  xray_available : Bool
  outbound_generated : Bool
  startup_crashed : Bool
  request_outcome : Option (ℚ × Nat)
deriving DecidableEq, Repr

/-- `XrayVerifier.verify_config` (verifier.py lines 80–155) as a function of
its environment.  No Xray: `(True, 0)` ("Fallback: If no Xray, assume True").
No outbound: `(True, 0)` ("Cannot verify this protocol, pass it.").  Startup
crash: `(False, 0)`.  Request raised: `(False, 0)`.  Response with status
204: `(True, latency)`; any other status falls through to the final
`return False, 0`. -/
def verify_config (env : VerifyEnv) : Bool × ℚ :=
  if !env.xray_available then (true, 0)
  else if !env.outbound_generated then (true, 0)
  else if env.startup_crashed then (false, 0)
  else
    match env.request_outcome with
    | none => (false, 0)
    | some (latency, status) =>
        if status = 204 then (true, latency) else (false, 0)

/-! Concrete data used by the scenario theorems and counterexamples. -/

/-- Target A of the spec's ranking scenario. -/
def cfgA : ProxyConfig := ⟨"vmess", "a.example", 443, "uuid-a", "A", "linkA"⟩

/-- Target B of the spec's ranking scenario. -/
def cfgB : ProxyConfig := ⟨"vless", "b.example", 443, "uuid-b", "B", "linkB"⟩

/-- Target C of the spec's ranking scenario. -/
def cfgC : ProxyConfig := ⟨"ss", "c.example", 8388, "uuid-c", "C", "linkC"⟩

/-- Target A: 5 successes, latencies averaging 50 ms with consecutive
absolute differences averaging 5 ms. -/
def statA : RollingStats :=
  { RollingStats.init cfgA 0 with
    history := [(true, 50), (true, 55), (true, 50), (true, 45), (true, 50)] }

/-- Target B: 5 successes, latencies averaging 300 ms with consecutive
absolute differences averaging 100 ms. -/
def statB : RollingStats :=
  { RollingStats.init cfgB 0 with
    history := [(true, 300), (true, 400), (true, 300), (true, 200), (true, 300)] }

/-- Target C: no samples yet. -/
def statC : RollingStats := RollingStats.init cfgC 0

/-- An established window of two failed probes: `count = 2`, `loss = 100`. -/
def statE2 : RollingStats :=
  { RollingStats.init cfgB 0 with history := [(false, 0), (false, 0)] }

/-- A window with two successful probes of wildly different latency (0 ms and
40 000 000 ms): loss 0, but enormous jitter and average latency. -/
def statHuge : RollingStats :=
  { RollingStats.init cfgA 601 with history := [(true, 0), (true, 40000000)] }

/-- A dead window: two failures, no success since construction at time 0. -/
def statDead : RollingStats :=
  { RollingStats.init cfgB 0 with history := [(false, 0), (false, 0)] }

/-- A window of three successful probes with latencies 100, 120, 110. -/
def statJ : RollingStats :=
  { RollingStats.init cfgA 0 with
    history := [(true, 100), (true, 120), (true, 110)] }

/-- Snapshot of tick 1 for the hysteresis failing input: A ranks first. -/
def snapsT1 : List Snap :=
  [⟨10, 0, 20, 0, 5, cfgA⟩, ⟨20, 0, 30, 0, 5, cfgB⟩]

/-- Snapshot of tick 2 for the hysteresis failing input: B has edged ahead;
A is at rank 2 of 2, well inside any hysteresis band, loss 0 (not dead). -/
def snapsT2 : List Snap :=
  [⟨10, 0, 20, 0, 5, cfgB⟩, ⟨20, 0, 30, 0, 5, cfgA⟩]

/-- A verifier environment where the Xray backend is unavailable. -/
def envNoXray : VerifyEnv := ⟨false, true, false, none⟩

/-- A dead window whose last success lies even further in the past. -/
def statDead2 : RollingStats :=
  { RollingStats.init cfgB (-100) with history := [(false, 0), (false, 0)] }

/-- An established window constructed at time 601 with five good samples. -/
def statLive : RollingStats :=
  { RollingStats.init cfgA 601 with
    history := [(true, 50), (true, 55), (true, 50), (true, 45), (true, 50)] }

/-- A freshly constructed empty window, created at time 601. -/
def statC2 : RollingStats := RollingStats.init cfgC 601

/-- Verifier environment: backend present, Xray process crashes on startup. -/
def envCrash : VerifyEnv := ⟨true, true, true, none⟩

/-- Verifier environment: the proxied request raises (timeout and the like). -/
def envReqFail : VerifyEnv := ⟨true, true, false, none⟩

/-- Verifier environment: the proxied request answers with status 500. -/
def envBadStatus : VerifyEnv := ⟨true, true, false, some (12, 500)⟩

/-- Verifier environment: the proxied request answers 204 in 12 ms. -/
def envOk : VerifyEnv := ⟨true, true, false, some (12, 204)⟩

/-! ## General lemmas about the embedded code -/

/-- The sample count reported by `get_metrics` is the window length. -/
theorem get_metrics_count (s : RollingStats) :
    s.get_metrics.count = s.history.length := by
  unfold RollingStats.get_metrics
  by_cases h : s.history.isEmpty
  · simp [h, List.isEmpty_iff.mp h]
  · simp only [h, Bool.false_eq_true, if_false]
    split <;> rfl

/-- The loss percentage reported by `get_metrics` lies in `[0, 100]`. -/
theorem get_metrics_loss_bounds (s : RollingStats) :
    0 ≤ s.get_metrics.loss ∧ s.get_metrics.loss ≤ 100 := by
  unfold RollingStats.get_metrics
  by_cases h : s.history.isEmpty
  · simp [h]
  · have hlen : 0 < s.history.length := by
      cases hh : s.history with
      | nil => simp [hh] at h
      | cons a l => simp [hh]
    have hf : (s.history.filter (fun p => !p.1)).length ≤ s.history.length :=
      List.length_filter_le _ _
    have hloss : (0:ℚ) ≤ ((s.history.filter (fun p => !p.1)).length : ℚ) /
        (s.history.length : ℚ) * 100 ∧
        ((s.history.filter (fun p => !p.1)).length : ℚ) /
        (s.history.length : ℚ) * 100 ≤ 100 := by
      constructor
      · positivity
      · have h1 : ((s.history.filter (fun p => !p.1)).length : ℚ) /
            (s.history.length : ℚ) ≤ 1 := by
          rw [div_le_one (by exact_mod_cast hlen)]
          exact_mod_cast hf
        nlinarith
    simp only [h, Bool.false_eq_true, if_false]
    split
    · exact hloss
    · exact hloss

/-- With fewer than two successful samples, `get_metrics` reports zero
latency and zero jitter. -/
theorem get_metrics_sub2 (s : RollingStats)
    (h : (s.history.filter (fun p => p.1)).length < 2) :
    s.get_metrics.latency = 0 ∧ s.get_metrics.jitter = 0 := by
  unfold RollingStats.get_metrics
  by_cases he : s.history.isEmpty
  · simp [he]
  · simp only [he, Bool.false_eq_true, if_false]
    rw [if_pos]
    · exact ⟨rfl, rfl⟩
    · simpa using h

/-- Dead branch of `get_score` (monitor.py lines 130–133). -/
theorem get_score_dead (s : RollingStats) (now : ℚ)
    (h : 600 < now - s.last_success_time) :
    s.get_score now =
      (⟨9999999 + (now - s.last_success_time), 100, s.get_metrics.latency,
        s.get_metrics.jitter, s.get_metrics.count⟩, s) := by
  unfold RollingStats.get_score
  rw [if_pos h]

/-- Warmup branch of `get_score` (monitor.py lines 138–139). -/
theorem get_score_warmup (s : RollingStats) (now : ℚ)
    (hnd : ¬ 600 < now - s.last_success_time) (hc : s.get_metrics.count < 2) :
    s.get_score now =
      (⟨999999 + rawScore s.get_metrics, s.get_metrics.loss,
        s.get_metrics.latency, s.get_metrics.jitter, s.get_metrics.count⟩, s) := by
  unfold RollingStats.get_score
  rw [if_neg hnd, if_pos hc]

/-- Established branch of `get_score`, first established sample
(monitor.py lines 143–144): the EMA is seeded with the raw value. -/
theorem get_score_seed (s : RollingStats) (now : ℚ)
    (hnd : ¬ 600 < now - s.last_success_time) (hc : ¬ s.get_metrics.count < 2)
    (hs : s.smoothed_score = none) :
    s.get_score now =
      (⟨rawScore s.get_metrics, s.get_metrics.loss, s.get_metrics.latency,
        s.get_metrics.jitter, s.get_metrics.count⟩,
       { s with smoothed_score := some (rawScore s.get_metrics) }) := by
  unfold RollingStats.get_score
  rw [if_neg hnd, if_neg hc, hs]

/-- Established branch of `get_score`, subsequent samples (monitor.py lines
145–146): `new = 0.05·raw + 0.95·old`. -/
theorem get_score_ema (s : RollingStats) (now : ℚ) (old : ℚ)
    (hnd : ¬ 600 < now - s.last_success_time) (hc : ¬ s.get_metrics.count < 2)
    (hs : s.smoothed_score = some old) :
    s.get_score now =
      (⟨(1 / 20) * rawScore s.get_metrics + (19 / 20) * old,
        s.get_metrics.loss, s.get_metrics.latency, s.get_metrics.jitter,
        s.get_metrics.count⟩,
       { s with
          smoothed_score :=
            some ((1 / 20) * rawScore s.get_metrics + (19 / 20) * old) }) := by
  unfold RollingStats.get_score
  rw [if_neg hnd, if_neg hc, hs]

/-- A warmup (non-dead, `count < 2`) score always lies in
`[999999, 1999999]`: latency and jitter are reported as 0, so the raw
composite reduces to `loss × 10000 ≤ 10⁶`. -/
theorem warmup_score_bounds (s : RollingStats) (now : ℚ)
    (hnd : ¬ 600 < now - s.last_success_time) (hc : s.get_metrics.count < 2) :
    999999 ≤ (s.get_score now).1.score ∧
      (s.get_score now).1.score ≤ 1999999 := by
  have hcount := get_metrics_count s
  have hvalid : (s.history.filter (fun p => p.1)).length < 2 := by
    calc (s.history.filter (fun p => p.1)).length ≤ s.history.length :=
          List.length_filter_le _ _
      _ = s.get_metrics.count := hcount.symm
      _ < 2 := hc
  obtain ⟨hl0, hj0⟩ := get_metrics_sub2 s hvalid
  obtain ⟨hge, hle⟩ := get_metrics_loss_bounds s
  rw [get_score_warmup s now hnd hc]
  unfold rawScore
  rw [hl0, hj0]
  constructor <;> [nlinarith; nlinarith]

/-- `get_metrics` on an empty window. -/
theorem get_metrics_empty (s : RollingStats) (h : s.history = []) :
    s.get_metrics = ⟨0, 0, 0, 0⟩ := by
  unfold RollingStats.get_metrics
  simp [h]

/-- On a nonempty window, `get_metrics` reports
`loss = failures / total × 100`. -/
theorem get_metrics_loss_eq (s : RollingStats) (h : s.history ≠ []) :
    s.get_metrics.loss =
      ((s.history.filter (fun p => !p.1)).length : ℚ) /
        (s.history.length : ℚ) * 100 := by
  unfold RollingStats.get_metrics
  simp only [List.isEmpty_iff, h, if_false]
  split <;> rfl

/-! ## Claim theorems -/

/-- C6: `get_metrics` reports `loss = failures/total × 100`, always in
`[0, 100]`; an empty window reports all-zero metrics; with fewer than two
successful samples latency and jitter are 0; and successes 100, 120, 110 ms
yield jitter `mean(20, 10) = 15`. -/
theorem C6_metrics_functional :
    (∀ s : RollingStats,
      0 ≤ s.get_metrics.loss ∧ s.get_metrics.loss ≤ 100) ∧
    (∀ s : RollingStats, s.history = [] → s.get_metrics = ⟨0, 0, 0, 0⟩) ∧
    (∀ s : RollingStats, s.history ≠ [] →
      s.get_metrics.loss =
        ((s.history.filter (fun p => !p.1)).length : ℚ) /
          (s.history.length : ℚ) * 100) ∧
    (∀ s : RollingStats, (s.history.filter (fun p => p.1)).length < 2 →
      s.get_metrics.latency = 0 ∧ s.get_metrics.jitter = 0) ∧
    statJ.get_metrics.jitter = 15 := by
  refine ⟨get_metrics_loss_bounds, get_metrics_empty, get_metrics_loss_eq,
    get_metrics_sub2, ?_⟩
  norm_num [statJ, RollingStats.init, RollingStats.get_metrics, listMean,
    List.filter, List.zip, List.zipWith]

/-- Witness for C6, instantiated at the concrete windows `statJ` (three
successes) and `statC` (empty). -/
theorem C6_witness :
    (0 ≤ statJ.get_metrics.loss ∧ statJ.get_metrics.loss ≤ 100) ∧
    statC.get_metrics = ⟨0, 0, 0, 0⟩ ∧
    statJ.get_metrics.loss =
      ((statJ.history.filter (fun p => !p.1)).length : ℚ) /
        (statJ.history.length : ℚ) * 100 ∧
    (statC.get_metrics.latency = 0 ∧ statC.get_metrics.jitter = 0) := by
  have h := C6_metrics_functional
  exact ⟨h.1 statJ, h.2.1 statC rfl,
    h.2.2.1 statJ (by simp [statJ, RollingStats.init]),
    h.2.2.2.1 statC (by simp [statC, RollingStats.init])⟩

/-- C7: the established-tier raw composite is
`loss×10000 + jitter×5 + latency×0.5`; the returned score follows the EMA
recurrence `new = 0.05·raw + 0.95·previous`, seeded with `raw` itself on the
first established sample; and the dead and warmup branches return the state
unchanged (the smoothing state is updated only in the established tier). -/
theorem C7_established_ema :
    (∀ (s : RollingStats) (now : ℚ),
      rawScore s.get_metrics =
        s.get_metrics.loss * 10000 + s.get_metrics.jitter * 5 +
          s.get_metrics.latency * (1 / 2) ∧
      (¬ 600 < now - s.last_success_time → ¬ s.get_metrics.count < 2 →
        (s.smoothed_score = none →
          (s.get_score now).1.score = rawScore s.get_metrics ∧
          (s.get_score now).2.smoothed_score = some (rawScore s.get_metrics)) ∧
        (∀ old : ℚ, s.smoothed_score = some old →
          (s.get_score now).1.score =
            (1 / 20) * rawScore s.get_metrics + (19 / 20) * old ∧
          (s.get_score now).2.smoothed_score =
            some ((1 / 20) * rawScore s.get_metrics + (19 / 20) * old)))) ∧
    (∀ (s : RollingStats) (now : ℚ), 600 < now - s.last_success_time →
      (s.get_score now).2 = s) ∧
    (∀ (s : RollingStats) (now : ℚ),
      ¬ 600 < now - s.last_success_time → s.get_metrics.count < 2 →
      (s.get_score now).2 = s) := by
  refine ⟨fun s now => ⟨rfl, fun hnd hc => ⟨fun hs => ?_, fun old hs => ?_⟩⟩,
    fun s now h => ?_, fun s now hnd hc => ?_⟩
  · rw [get_score_seed s now hnd hc hs]
    exact ⟨rfl, rfl⟩
  · rw [get_score_ema s now old hnd hc hs]
    exact ⟨rfl, rfl⟩
  · rw [get_score_dead s now h]
  · rw [get_score_warmup s now hnd hc]

/-- Witness for C7: `statJ` (3 samples, fresh smoothing state) seeds the EMA
with its raw composite; the dead window `statDead` and the warmup window
`statC` are returned unchanged. -/
theorem C7_witness :
    ((statJ.get_score 0).1.score = rawScore statJ.get_metrics ∧
      (statJ.get_score 0).2.smoothed_score = some (rawScore statJ.get_metrics)) ∧
    (statDead.get_score 601).2 = statDead ∧
    (statC.get_score 0).2 = statC := by
  have h := C7_established_ema
  refine ⟨((h.1 statJ 0).2 (by norm_num [statJ, RollingStats.init])
      (by decide)).1 rfl,
    h.2.1 statDead 601 (by norm_num [statDead, RollingStats.init]),
    h.2.2 statC 0 (by norm_num [statC, RollingStats.init]) (by decide)⟩

/-- C5 counterexample: the claim quantifies over *any* latency and jitter
values, but the non-dead window `statHuge` (loss 0, jitter 40 000 000 ms)
scores 210 000 000, far above the dead window `statDead`'s
`9999999 + 601 = 10 000 600` — the dead target does not sort last. -/
theorem C5_counterexample :
    600 < (601:ℚ) - statDead.last_success_time ∧
    ¬ 600 < (601:ℚ) - statHuge.last_success_time ∧
    (statDead.get_score 601).1.score < (statHuge.get_score 601).1.score := by
  refine ⟨by norm_num [statDead, RollingStats.init],
    by norm_num [statHuge, RollingStats.init], ?_⟩
  norm_num [statDead, statHuge, RollingStats.init, RollingStats.get_score,
    RollingStats.get_metrics, rawScore, listMean, List.filter, List.zip,
    List.zipWith]

/-- C5 amended: past the dead threshold, `get_score` forces `loss = 100` and
returns `9999999 + time_since_success`, strictly monotone in the time since
the last success; and a dead target scores strictly above every non-dead
target whose score is at most `9999999 + 600` (any realistic, bounded
latency/jitter — but not arbitrarily large values). -/
theorem C5_dead_tier_amended :
    (∀ (s : RollingStats) (now : ℚ), 600 < now - s.last_success_time →
      (s.get_score now).1.loss = 100 ∧
      (s.get_score now).1.score = 9999999 + (now - s.last_success_time)) ∧
    (∀ (s1 s2 : RollingStats) (now : ℚ),
      600 < now - s1.last_success_time →
      now - s1.last_success_time < now - s2.last_success_time →
      (s1.get_score now).1.score < (s2.get_score now).1.score) ∧
    (∀ (sD sN : RollingStats) (now : ℚ),
      600 < now - sD.last_success_time →
      ¬ 600 < now - sN.last_success_time →
      (sN.get_score now).1.score ≤ 9999999 + 600 →
      (sN.get_score now).1.score < (sD.get_score now).1.score) := by
  refine ⟨fun s now h => ?_, fun s1 s2 now h1 h12 => ?_,
    fun sD sN now hD hN hb => ?_⟩
  · rw [get_score_dead s now h]
    exact ⟨rfl, rfl⟩
  · rw [get_score_dead s1 now h1, get_score_dead s2 now (by linarith)]
    simpa using h12
  · rw [get_score_dead sD now hD]
    simp only
    linarith

/-- Witness for C5: instantiated at the dead windows `statDead` (601 s since
success) and `statDead2` (701 s) and the live window `statLive`. -/
theorem C5_witness :
    ((statDead.get_score 601).1.loss = 100 ∧
      (statDead.get_score 601).1.score =
        9999999 + ((601:ℚ) - statDead.last_success_time)) ∧
    (statDead.get_score 601).1.score < (statDead2.get_score 601).1.score ∧
    (statLive.get_score 601).1.score < (statDead.get_score 601).1.score := by
  have h := C5_dead_tier_amended
  refine ⟨h.1 statDead 601 (by norm_num [statDead, RollingStats.init]),
    h.2.1 statDead statDead2 601 (by norm_num [statDead, RollingStats.init])
      (by norm_num [statDead, statDead2, RollingStats.init]),
    h.2.2 statDead statLive 601 (by norm_num [statDead, RollingStats.init])
      (by norm_num [statLive, RollingStats.init]) ?_⟩
  norm_num [statLive, RollingStats.init, RollingStats.get_score,
    RollingStats.get_metrics, rawScore, listMean, List.filter, List.zip,
    List.zipWith]

/-- C4 counterexample: the warmup window `statC` (0 samples, score 999999)
scores strictly *below* the established window `statE2` (2 failed samples,
loss 100 %, score 1 000 000), although neither is dead — the warmup target
does not sort after this established target. -/
theorem C4_counterexample :
    statC.get_metrics.count < 2 ∧ ¬ statE2.get_metrics.count < 2 ∧
    ¬ 600 < (0:ℚ) - statC.last_success_time ∧
    ¬ 600 < (0:ℚ) - statE2.last_success_time ∧
    (statC.get_score 0).1.score < (statE2.get_score 0).1.score := by
  refine ⟨by decide, by decide,
    by norm_num [statC, RollingStats.init],
    by norm_num [statE2, RollingStats.init], ?_⟩
  norm_num [statC, statE2, RollingStats.init, RollingStats.get_score,
    RollingStats.get_metrics, rawScore, listMean, List.filter]

/-- C4 amended: a warmup target outscores an established one whenever the
established score stays below the warmup offset 999999 (an established
window near 100 % loss exceeds it); every warmup target scores strictly
below every dead target; and the concrete scenario A (5 successes, avg 50,
jitter 5), B (5 successes, avg 300, jitter 100), C (0 samples) ranks
A, B, C. -/
theorem C4_warmup_tier_amended :
    (∀ (sW sE : RollingStats) (now : ℚ),
      ¬ 600 < now - sW.last_success_time → sW.get_metrics.count < 2 →
      ¬ 600 < now - sE.last_success_time → ¬ sE.get_metrics.count < 2 →
      (sE.get_score now).1.score < 999999 →
      (sE.get_score now).1.score < (sW.get_score now).1.score) ∧
    (∀ (sW sD : RollingStats) (now : ℚ),
      ¬ 600 < now - sW.last_success_time → sW.get_metrics.count < 2 →
      600 < now - sD.last_success_time →
      (sW.get_score now).1.score < (sD.get_score now).1.score) ∧
    ((statA.get_score 0).1.score < (statB.get_score 0).1.score ∧
      (statB.get_score 0).1.score < (statC.get_score 0).1.score) := by
  refine ⟨fun sW sE now hndW hcW hndE hcE hE => ?_,
    fun sW sD now hndW hcW hD => ?_, ?_, ?_⟩
  · have hW := (warmup_score_bounds sW now hndW hcW).1
    linarith
  · have hW := (warmup_score_bounds sW now hndW hcW).2
    rw [get_score_dead sD now hD]
    simp only
    linarith
  · norm_num [statA, statB, RollingStats.init, RollingStats.get_score,
      RollingStats.get_metrics, rawScore, listMean, List.filter, List.zip,
      List.zipWith]
  · norm_num [statB, statC, RollingStats.init, RollingStats.get_score,
      RollingStats.get_metrics, rawScore, listMean, List.filter, List.zip,
      List.zipWith]

/-- Witness for C4: the established window `statA` (score 50) sorts before
the warmup window `statC`, and the fresh warmup window `statC2` sorts before
the dead window `statDead`. -/
theorem C4_witness :
    (statA.get_score 0).1.score < (statC.get_score 0).1.score ∧
    (statC2.get_score 601).1.score < (statDead.get_score 601).1.score := by
  have h := C4_warmup_tier_amended
  refine ⟨h.1 statC statA 0 (by norm_num [statC, RollingStats.init])
      (by decide) (by norm_num [statA, RollingStats.init]) (by decide) ?_,
    h.2.1 statC2 statDead 601 (by norm_num [statC2, RollingStats.init])
      (by decide) (by norm_num [statDead, RollingStats.init])⟩
  norm_num [statA, RollingStats.init, RollingStats.get_score,
    RollingStats.get_metrics, rawScore, listMean, List.filter, List.zip,
    List.zipWith]

/-- Appending to the bounded deque turns a window of the last `C` elements of
`l` into a window of the last `C` elements of `l ++ [x]`. -/
theorem dequeAppend_window (C : Nat) (l : List (Bool × ℚ)) (x : Bool × ℚ) :
    dequeAppend C (l.drop (l.length - C)) x =
      (l ++ [x]).drop ((l ++ [x]).length - C) := by
  unfold dequeAppend
  by_cases hnC : l.length ≤ C
  · rw [Nat.sub_eq_zero_of_le hnC, List.drop_zero]
    simp only [List.length_append, List.length_singleton]
    split
    · rfl
    · rename_i hcond
      have : l.length + 1 - C = 0 := by omega
      rw [this, List.drop_zero]
  · push_neg at hnC
    have hlenw : (l.drop (l.length - C)).length = C := by
      rw [List.length_drop]; omega
    simp only [List.length_append, List.length_singleton, hlenw]
    rw [if_pos (by omega)]
    by_cases hC0 : C = 0
    · subst hC0
      simp
    · have h1C : 1 ≤ C := by omega
      rw [List.drop_append_of_le_length
          (by omega : C + 1 - C ≤ (l.drop (l.length - C)).length),
        List.drop_append_of_le_length (by omega : l.length + 1 - C ≤ l.length),
        List.drop_drop]
      congr 2
      omega

/-- Folding bounded-deque appends over `xs`, starting from the last-`C`
window of `l`, yields the last-`C` window of `l ++ xs`. -/
theorem foldl_dequeAppend (C : Nat) (xs : List (Bool × ℚ)) :
    ∀ l : List (Bool × ℚ),
      xs.foldl (dequeAppend C) (l.drop (l.length - C)) =
        (l ++ xs).drop ((l ++ xs).length - C) := by
  induction xs with
  | nil => intro l; simp
  | cons x xs ih =>
      intro l
      rw [List.foldl_cons, dequeAppend_window]
      simpa [List.append_assoc] using ih (l ++ [x])

/-- `addAll` drives the history exactly through bounded-deque appends of the
recorded `(is_up, latency)` pairs, and never changes the capacity. -/
theorem addAll_history (xs : List (ℚ × Bool × ℚ)) :
    ∀ s : RollingStats,
      (s.addAll xs).history =
        (xs.map (fun x => (x.2.1, x.2.2))).foldl (dequeAppend s.maxlen)
          s.history ∧
      (s.addAll xs).maxlen = s.maxlen := by
  induction xs with
  | nil => intro s; exact ⟨rfl, rfl⟩
  | cons x xs ih =>
      intro s
      have h := ih (s.add x.1 x.2.1 x.2.2)
      unfold RollingStats.addAll at h ⊢
      rw [List.foldl_cons, List.map_cons, List.foldl_cons]
      exact h

/-- After any sequence of appends to a fresh window, the history is the
most recent 100 recorded outcomes in arrival order. -/
theorem addAll_from_empty (cfg : ProxyConfig) (t0 : ℚ)
    (xs : List (ℚ × Bool × ℚ)) :
    ((RollingStats.init cfg t0).addAll xs).history =
      (xs.map (fun x => (x.2.1, x.2.2))).drop (xs.length - 100) := by
  have h := (addAll_history xs (RollingStats.init cfg t0)).1
  have hm : (RollingStats.init cfg t0).maxlen = 100 := rfl
  have hh : (RollingStats.init cfg t0).history = [] := rfl
  rw [h, hm, hh]
  simpa using foldl_dequeAppend 100 (xs.map (fun x => (x.2.1, x.2.2))) []

/-- C8: for every sequence of N appended outcomes into a fresh window of
capacity 100, the window holds exactly the most recent `min(N, 100)`
outcomes in arrival order (oldest evicted first) and its length is
`min(N, 100)` — in particular never above the capacity, after every
prefix of the sequence. -/
theorem C8_window_fifo (cfg : ProxyConfig) (t0 : ℚ)
    (xs : List (ℚ × Bool × ℚ)) :
    ((RollingStats.init cfg t0).addAll xs).history =
      (xs.map (fun x => (x.2.1, x.2.2))).drop (xs.length - 100) ∧
    ((RollingStats.init cfg t0).addAll xs).history.length =
      min xs.length 100 := by
  refine ⟨addAll_from_empty cfg t0 xs, ?_⟩
  rw [addAll_from_empty cfg t0 xs, List.length_drop, List.length_map]
  omega

/-- One bounded-deque append always yields length `min (n+1) C`. -/
theorem dequeAppend_length (C : Nat) (h : List (Bool × ℚ)) (x : Bool × ℚ) :
    (dequeAppend C h x).length = min (h.length + 1) C := by
  unfold dequeAppend
  simp only [List.length_append, List.length_singleton]
  split
  · rename_i hcond
    rw [List.length_drop]
    simp only [List.length_append, List.length_singleton]
    omega
  · rename_i hcond
    simp only [List.length_append, List.length_singleton]
    omega

/-- The element just appended to the bounded deque is its last element. -/
theorem dequeAppend_getLast (C : Nat) (h : List (Bool × ℚ)) (x : Bool × ℚ)
    (hle : h.length ≤ C) (hC : 0 < C) :
    (dequeAppend C h x).getLast? = some x := by
  unfold dequeAppend
  simp only [List.length_append, List.length_singleton]
  split
  · rename_i hcond
    rw [List.drop_append_of_le_length (by omega : h.length + 1 - C ≤ h.length)]
    exact List.getLast?_concat _
  · exact List.getLast?_concat _

/-- A pinger iteration is a single `add` of the recorded outcome. -/
theorem pingerIteration_eq (stat : RollingStats) (now : ℚ) (r : ProbeResult) :
    pingerIteration stat now r =
      stat.add now (recordedOutcome r).1 (recordedOutcome r).2 := by
  cases r <;> rfl

/-- C9: every iteration of the per-target probing loop records exactly one
outcome into that target's window — the window grows by exactly one entry
(up to the capacity) and its newest entry is the recorded outcome — for
*every* probe result, including the exception case, which is recorded as a
failed probe `(False, 0)`; the iteration is total, so no probe failure or
internal exception escapes the loop body. -/
theorem C9_one_outcome_per_iteration (stat : RollingStats) (now : ℚ)
    (r : ProbeResult) (hle : stat.history.length ≤ stat.maxlen)
    (hC : 0 < stat.maxlen) :
    (pingerIteration stat now r).history.length =
      min (stat.history.length + 1) stat.maxlen ∧
    (pingerIteration stat now r).history.getLast? =
      some (recordedOutcome r) ∧
    pingerIteration stat now .error = stat.add now false 0 := by
  rw [pingerIteration_eq]
  refine ⟨?_, ?_, rfl⟩
  · exact dequeAppend_length _ _ _
  · exact dequeAppend_getLast _ _ _ hle hC

/-- Witness for C9: an iteration over `statJ` whose probe raised records
exactly the failure outcome `(false, 0)`. -/
theorem C9_witness :
    (pingerIteration statJ 1 .error).history.length =
      min (statJ.history.length + 1) statJ.maxlen ∧
    (pingerIteration statJ 1 .error).history.getLast? =
      some (recordedOutcome .error) ∧
    pingerIteration statJ 1 .error = statJ.add 1 false 0 := by
  exact C9_one_outcome_per_iteration statJ 1 .error (by decide) (by decide)

/-- An element of the window after an `add` is an old element or the one
just appended. -/
theorem add_history_mem (s : RollingStats) (now : ℚ) (b : Bool) (l : ℚ)
    (p : Bool × ℚ) (hp : p ∈ (s.add now b l).history) :
    p ∈ s.history ∨ p = (b, l) := by
  unfold RollingStats.add dequeAppend at hp
  simp only at hp
  split at hp
  · have := List.mem_of_mem_drop hp
    simpa using this
  · simpa using hp

/-- Appending only failures to a window of failures leaves a window of
failures. -/
theorem addAll_all_false (xs : List (ℚ × Bool × ℚ)) :
    ∀ s : RollingStats, (∀ x ∈ xs, x.2.1 = false) →
      (∀ p ∈ s.history, p.1 = false) →
      ∀ p ∈ (s.addAll xs).history, p.1 = false := by
  induction xs with
  | nil => intro s _ hs p hp; exact hs p hp
  | cons x xs ih =>
      intro s hxs hs p hp
      refine ih (s.add x.1 x.2.1 x.2.2)
        (fun y hy => hxs y (List.mem_cons_of_mem x hy)) ?_ p hp
      intro q hq
      rcases add_history_mem s x.1 x.2.1 x.2.2 q hq with h | h
      · exact hs q h
      · rw [h]
        exact hxs x (List.mem_cons_self x xs)

/-- Failed probes never move the last-success timestamp. -/
theorem addAll_last_success (xs : List (ℚ × Bool × ℚ)) :
    ∀ s : RollingStats, (∀ x ∈ xs, x.2.1 = false) →
      (s.addAll xs).last_success_time = s.last_success_time := by
  induction xs with
  | nil => intro s _; rfl
  | cons x xs ih =>
      intro s hxs
      unfold RollingStats.addAll
      rw [List.foldl_cons]
      have hx : x.2.1 = false := hxs x (List.mem_cons_self x xs)
      have := ih (s.add x.1 x.2.1 x.2.2)
        (fun y hy => hxs y (List.mem_cons_of_mem x hy))
      unfold RollingStats.addAll at this
      rw [this]
      unfold RollingStats.add
      simp [hx]

/-- `add` never touches the smoothing state. -/
theorem addAll_smoothed (xs : List (ℚ × Bool × ℚ)) :
    ∀ s : RollingStats, (s.addAll xs).smoothed_score = s.smoothed_score := by
  induction xs with
  | nil => intro s; rfl
  | cons x xs ih =>
      intro s
      unfold RollingStats.addAll
      rw [List.foldl_cons]
      have := ih (s.add x.1 x.2.1 x.2.2)
      unfold RollingStats.addAll at this
      rw [this]
      rfl

/-- A non-dead window holding only failures scores strictly below the dead
band: its score is at most `999999 + 10⁶`. -/
theorem score_bound_all_false (s : RollingStats) (now : ℚ)
    (hnd : ¬ 600 < now - s.last_success_time)
    (hfalse : ∀ p ∈ s.history, p.1 = false)
    (hsm : s.smoothed_score = none) :
    (s.get_score now).1.score < 9999999 := by
  have hfilter : s.history.filter (fun p => p.1) = [] := by
    rw [List.filter_eq_nil_iff]
    intro p hp
    simp [hfalse p hp]
  have hsub : (s.history.filter (fun p => p.1)).length < 2 := by
    rw [hfilter]; decide
  obtain ⟨hl0, hj0⟩ := get_metrics_sub2 s hsub
  obtain ⟨hge, hle⟩ := get_metrics_loss_bounds s
  have hraw : rawScore s.get_metrics ≤ 1000000 := by
    unfold rawScore
    rw [hl0, hj0]
    nlinarith
  by_cases hc : s.get_metrics.count < 2
  · rw [get_score_warmup s now hnd hc]
    simp only
    linarith
  · rw [get_score_seed s now hnd hc hsm]
    simp only
    linarith

/-- C10: a freshly constructed window is never classified dead within 600 s
of its construction, even if every appended outcome is a failure: the
last-success timestamp stays at the construction time `t0`, the dead-branch
condition `600 < now - last_success_time` is false for every
`now ≤ t0 + 600`, and the score stays strictly below the dead band. -/
theorem C10_fresh_window_not_dead (cfg : ProxyConfig) (t0 : ℚ)
    (xs : List (ℚ × ℚ)) (now : ℚ) (h : now ≤ t0 + 600) :
    ((RollingStats.init cfg t0).addAll
        (xs.map fun x => (x.1, false, x.2))).last_success_time = t0 ∧
    ¬ 600 < now - ((RollingStats.init cfg t0).addAll
        (xs.map fun x => (x.1, false, x.2))).last_success_time ∧
    (((RollingStats.init cfg t0).addAll
        (xs.map fun x => (x.1, false, x.2))).get_score now).1.score
      < 9999999 := by
  have hfalse : ∀ x ∈ xs.map fun x => (x.1, false, x.2), x.2.1 = false := by
    intro x hx
    simp only [List.mem_map] at hx
    obtain ⟨y, _, rfl⟩ := hx
    rfl
  have hlst := addAll_last_success (xs.map fun x => (x.1, false, x.2))
    (RollingStats.init cfg t0) hfalse
  have ht0 : (RollingStats.init cfg t0).last_success_time = t0 := rfl
  rw [ht0] at hlst
  have hnd : ¬ 600 < now -
      ((RollingStats.init cfg t0).addAll
        (xs.map fun x => (x.1, false, x.2))).last_success_time := by
    rw [hlst]; linarith
  refine ⟨hlst, hnd, ?_⟩
  refine score_bound_all_false _ now hnd ?_ ?_
  · refine addAll_all_false _ _ hfalse ?_
    intro p hp
    simp [RollingStats.init] at hp
  · rw [addAll_smoothed]
    rfl

/-- Witness for C10: two failures appended at times 5 and 10 to a window
created at time 0; at time 600 the window is still not dead. -/
theorem C10_witness :
    ((RollingStats.init cfgA 0).addAll
        ([((5:ℚ), (0:ℚ)), (10, 0)].map
          fun x => (x.1, false, x.2))).last_success_time = 0 ∧
    ¬ 600 < (600:ℚ) - ((RollingStats.init cfgA 0).addAll
        ([((5:ℚ), (0:ℚ)), (10, 0)].map
          fun x => (x.1, false, x.2))).last_success_time ∧
    (((RollingStats.init cfgA 0).addAll
        ([((5:ℚ), (0:ℚ)), (10, 0)].map
          fun x => (x.1, false, x.2))).get_score 600).1.score < 9999999 :=
  C10_fresh_window_not_dead cfgA 0 [((5:ℚ), (0:ℚ)), (10, 0)] 600 (by norm_num)

/-- C1: at the failing input, the auto-select step of the live loop replaces
the recommendation even though the current recommendation's rank stayed at
2 (inside any hysteresis band K ≥ 2) and its target is not dead: tick 1
recommends A; on tick 2, where A merely slips to rank 2 with 0 % loss, the
loop immediately recommends B — there is no re-evaluation phase and no
verification between the two ticks (`monitorTick` consults no verifier and
not the previous recommendation). -/
theorem C1_recommendation_replaced_without_reevaluation :
    monitorTick 120 false snapsT1 none = some cfgA ∧
    rankIn snapsT2 cfgA = 2 ∧
    (∀ sn ∈ snapsT2, sn.config = cfgA → sn.loss < 100) ∧
    monitorTick 120 false snapsT2 (some cfgA) = some cfgB ∧
    some cfgB ≠ some cfgA := by
  refine ⟨by decide, by decide, by decide, by decide, by decide⟩

/-- C2 counterexample: when the verification backend is unavailable,
`verify_config` returns `(True, 0)` — valid without any proxied check — not
`(False, 0)` as the claim requires. -/
theorem C2_counterexample :
    envNoXray.xray_available = false ∧
    verify_config envNoXray = (true, 0) ∧
    verify_config envNoXray ≠ (false, 0) := by
  refine ⟨rfl, rfl, by decide⟩

/-- C2 amended: with the backend available and an outbound generated, every
internal failure — startup crash, request exception, non-204 status — maps
to `(false, 0)`, and a `true` verdict implies a 204-status proxied response
whose latency is returned; but when the backend is unavailable, or no
outbound is generated for the protocol, `verify_config` falls back to
`(true, 0)`, trusting the shallow check. -/
theorem C2_verifier_amended :
    (∀ env : VerifyEnv, env.xray_available = true →
      env.outbound_generated = true →
      (env.startup_crashed = true → verify_config env = (false, 0)) ∧
      (env.request_outcome = none → env.startup_crashed = false →
        verify_config env = (false, 0)) ∧
      (∀ (lat : ℚ) (st : Nat), env.request_outcome = some (lat, st) →
        env.startup_crashed = false → st ≠ 204 →
        verify_config env = (false, 0)) ∧
      (∀ (lat : ℚ) (st : Nat), env.request_outcome = some (lat, st) →
        (verify_config env).1 = true →
        st = 204 ∧ verify_config env = (true, lat))) ∧
    (∀ env : VerifyEnv, env.xray_available = false →
      verify_config env = (true, 0)) ∧
    (∀ env : VerifyEnv, env.xray_available = true →
      env.outbound_generated = false → verify_config env = (true, 0)) := by
  refine ⟨fun env hx ho => ⟨fun hcr => ?_, fun hreq hcr => ?_,
      fun lat st hreq hcr hst => ?_, fun lat st hreq hv => ?_⟩,
    fun env hx => ?_, fun env hx ho => ?_⟩
  · unfold verify_config
    simp [hx, ho, hcr]
  · unfold verify_config
    simp [hx, ho, hcr, hreq]
  · unfold verify_config
    simp [hx, ho, hcr, hreq, hst]
  · by_cases hcr : env.startup_crashed
    · unfold verify_config at hv
      simp [hx, ho, hcr] at hv
    · by_cases hst : st = 204
      · subst hst
        unfold verify_config
        simp [hx, ho, hcr, hreq]
      · unfold verify_config at hv
        simp [hx, ho, hcr, hreq, hst] at hv
  · unfold verify_config
    simp [hx]
  · unfold verify_config
    simp [hx, ho]

/-- Witness for C2, instantiating every branch of the amended contract at
concrete environments. -/
theorem C2_witness :
    verify_config envCrash = (false, 0) ∧
    verify_config envReqFail = (false, 0) ∧
    verify_config envBadStatus = (false, 0) ∧
    ((500:Nat) = 204 ∨ (verify_config envBadStatus).1 ≠ true) ∧
    verify_config envNoXray = (true, 0) := by
  have h := C2_verifier_amended
  refine ⟨((h.1 envCrash rfl rfl).1 rfl),
    ((h.1 envReqFail rfl rfl).2.1 rfl rfl),
    ((h.1 envBadStatus rfl rfl).2.2.1 12 500 rfl rfl (by decide)),
    ?_, h.2.1 envNoXray rfl⟩
  right
  intro hv
  exact absurd ((h.1 envBadStatus rfl rfl).2.2.2 12 500 rfl hv).1 (by decide)

/-- C3 counterexample: at a tick 10 s after monitor start — well inside the
60 s grace period — the auto-select step already sets a recommended target,
so the recommendation state is not NONE. -/
theorem C3_counterexample :
    (10:ℚ) < 60 ∧ monitorTick 10 false snapsT1 none = some cfgA := by
  refine ⟨by norm_num, by decide⟩

/-- C3 amended: during the grace period the *dashboard footer* shows the
"Analyzing stability..." countdown instead of any recommendation, for every
verification status and display config; but the internal recommended target
is computed independently of the elapsed time, so it may be set from the
first tick. -/
theorem C3_grace_period_amended :
    (∀ (elapsed : ℚ) (vs : String) (dc : Option ProxyConfig),
      elapsed < 60 →
      dashboardFooter elapsed vs dc = .analyzing (60 - elapsed)) ∧
    (∀ (e e' : ℚ) (m : Bool) (snaps : List Snap) (rec : Option ProxyConfig),
      monitorTick e m snaps rec = monitorTick e' m snaps rec) := by
  refine ⟨fun elapsed vs dc h => ?_, fun e e' m snaps rec => rfl⟩
  unfold dashboardFooter
  rw [if_pos h]

/-- Witness for C3: the footer at 10 s elapsed shows the countdown even with
a recommendation present, and the tick at elapsed 0 equals the tick at
elapsed 10000. -/
theorem C3_witness :
    dashboardFooter 10 "" (some cfgA) = .analyzing (60 - 10) ∧
    monitorTick 0 false snapsT1 none = monitorTick 10000 false snapsT1 none := by
  exact ⟨C3_grace_period_amended.1 10 "" (some cfgA) (by norm_num),
    C3_grace_period_amended.2 0 10000 false snapsT1 none⟩

end Configchecker
